import Mathlib

/-!
Verification development for the femmora client-side portal.

The development shallowly embeds the three logic-bearing mechanisms of the
repository: the Quiz Rotation Engine (`BrainQuizzesScreen.tsx`), the Session
Store (`AuthContext.tsx`) together with the registration form handler
(`RegistrationScreen.tsx`), and the Preference Store (`LanguageContext.tsx`).

Browser local storage is modelled per key by the classes of stored strings
that the reading code distinguishes: a missing value (or the empty string,
which is falsy in JavaScript and treated the same way by every reader in the
repository), a string on which `JSON.parse` throws, and a string that parses
to the expected shape. Stateful React component code is embedded as explicit
state-passing functions; code that can throw returns `Except`.
-/

/-! ## Quiz data model (`types.ts` shapes as used by `BrainQuizzesScreen.tsx`) -/

structure QuizAnswerOption where
  text : String
  isCorrect : Bool
deriving DecidableEq, Repr

structure QuizQuestion where
  id : String
  questionText : String
  options : List QuizAnswerOption
  category : String
  difficulty : String
  explanation : String
deriving DecidableEq, Repr

/-- Key constant `QUESTIONS_PER_BATCH` of `BrainQuizzesScreen.tsx`: number of
questions presented in each quiz batch. -/
def QUESTIONS_PER_BATCH : Nat := 5

/-- Static array `allMockQuestions` of `BrainQuizzesScreen.tsx`: the full
20-question pool, transcribed in source order. -/
def allMockQuestions : List QuizQuestion := [
  { id := "gk1",
    questionText := "What is the capital of India?",
    options := [ { text := "Mumbai", isCorrect := false }, { text := "New Delhi", isCorrect := true }, { text := "Kolkata", isCorrect := false }, { text := "Chennai", isCorrect := false } ],
    category := "General Knowledge", difficulty := "easy", explanation := "New Delhi is the capital of India." },
  { id := "gk2",
    questionText := "Which is the longest river in India?",
    options := [ { text := "Godavari", isCorrect := false }, { text := "Ganges (Ganga)", isCorrect := true }, { text := "Yamuna", isCorrect := false }, { text := "Brahmaputra", isCorrect := false } ],
    category := "General Knowledge", difficulty := "medium", explanation := "The Ganges (Ganga) is the longest river in India." },
  { id := "gk3",
    questionText := "Who is known as the \"Father of the Nation\" in India?",
    options := [ { text := "Jawaharlal Nehru", isCorrect := false }, { text := "Sardar Patel", isCorrect := false }, { text := "Mahatma Gandhi", isCorrect := true }, { text := "B.R. Ambedkar", isCorrect := false } ],
    category := "General Knowledge", difficulty := "easy", explanation := "Mahatma Gandhi is known as the Father of the Nation in India." },
  { id := "gk4",
    questionText := "How many states are there in India (as of 2023)?",
    options := [ { text := "28", isCorrect := true }, { text := "29", isCorrect := false }, { text := "30", isCorrect := false }, { text := "27", isCorrect := false } ],
    category := "General Knowledge", difficulty := "medium", explanation := "India has 28 states and 8 Union Territories." },
  { id := "gk5",
    questionText := "What is the national animal of India?",
    options := [ { text := "Lion", isCorrect := false }, { text := "Tiger", isCorrect := true }, { text := "Elephant", isCorrect := false }, { text := "Leopard", isCorrect := false } ],
    category := "General Knowledge", difficulty := "easy", explanation := "The Royal Bengal Tiger is the national animal of India." },
  { id := "logic1",
    questionText := "Which number comes next in the series: 2, 4, 6, 8, __?",
    options := [ { text := "9", isCorrect := false }, { text := "10", isCorrect := true }, { text := "12", isCorrect := false }, { text := "7", isCorrect := false } ],
    category := "Logic", difficulty := "easy", explanation := "The series increases by 2 each time. So, 8 + 2 = 10." },
  { id := "logic2",
    questionText := "If all Bloops are Razzies and all Razzies are Lazzies, are all Bloops definitely Lazzies?",
    options := [ { text := "Yes", isCorrect := true }, { text := "No", isCorrect := false }, { text := "Maybe", isCorrect := false }, { text := "Not enough information", isCorrect := false } ],
    category := "Logic", difficulty := "medium", explanation := "This is a transitive property. If A=B and B=C, then A=C." },
  { id := "logic3",
    questionText := "A B C D E. Which letter is two to the right of the letter immediately to the left of D?",
    options := [ { text := "C", isCorrect := false }, { text := "D", isCorrect := false }, { text := "E", isCorrect := true }, { text := "B", isCorrect := false } ],
    category := "Logic", difficulty := "medium", explanation := "Letter to the left of D is C. Two letters to the right of C is E." },
  { id := "logic4",
    questionText := "A mother is twice as old as her daughter. If the mother is 40, how old is the daughter?",
    options := [ { text := "10", isCorrect := false }, { text := "20", isCorrect := true }, { text := "30", isCorrect := false }, { text := "15", isCorrect := false } ],
    category := "Logic", difficulty := "easy", explanation := "If the mother is twice as old, the daughter is half her age. 40 / 2 = 20." },
  { id := "logic5",
    questionText := "Which shape usually has the most sides: Triangle, Square, Pentagon, Hexagon?",
    options := [ { text := "Triangle (3)", isCorrect := false }, { text := "Square (4)", isCorrect := false }, { text := "Pentagon (5)", isCorrect := false }, { text := "Hexagon (6)", isCorrect := true } ],
    category := "Logic", difficulty := "easy", explanation := "A hexagon has 6 sides, which is more than a triangle (3), square (4), or pentagon (5)." },
  { id := "math1",
    questionText := "What is 5 + 7?",
    options := [ { text := "10", isCorrect := false }, { text := "12", isCorrect := true }, { text := "11", isCorrect := false }, { text := "13", isCorrect := false } ],
    category := "Math", difficulty := "easy", explanation := "5 + 7 equals 12." },
  { id := "math2",
    questionText := "How many sides does a triangle have?",
    options := [ { text := "Three", isCorrect := true }, { text := "Four", isCorrect := false }, { text := "Five", isCorrect := false }, { text := "Six", isCorrect := false } ],
    category := "Math", difficulty := "easy", explanation := "A triangle is a polygon with three edges and three vertices." },
  { id := "math3",
    questionText := "What is 2 + 2 * 2?",
    options := [ { text := "8", isCorrect := false }, { text := "6", isCorrect := true }, { text := "4", isCorrect := false }, { text := "10", isCorrect := false } ],
    category := "Math", difficulty := "medium", explanation := "Order of operations (multiplication first): 2 * 2 = 4, then 2 + 4 = 6." },
  { id := "math4",
    questionText := "If you have 3 apples and you give away 1, how many do you have left?",
    options := [ { text := "1", isCorrect := false }, { text := "2", isCorrect := true }, { text := "3", isCorrect := false }, { text := "0", isCorrect := false } ],
    category := "Math", difficulty := "easy", explanation := "3 - 1 = 2." },
  { id := "math5",
    questionText := "What is 10 divided by 2?",
    options := [ { text := "2", isCorrect := false }, { text := "5", isCorrect := true }, { text := "8", isCorrect := false }, { text := "4", isCorrect := false } ],
    category := "Math", difficulty := "easy", explanation := "10 / 2 = 5." },
  { id := "sci1",
    questionText := "What do plants need to grow, apart from water and soil?",
    options := [ { text := "Moonlight", isCorrect := false }, { text := "Sunlight", isCorrect := true }, { text := "Electricity", isCorrect := false }, { text := "Wind", isCorrect := false } ],
    category := "Basic Science", difficulty := "easy", explanation := "Plants use sunlight for photosynthesis to make their food." },
  { id := "sci2",
    questionText := "What is H2O commonly known as?",
    options := [ { text := "Salt", isCorrect := false }, { text := "Sugar", isCorrect := false }, { text := "Water", isCorrect := true }, { text := "Air", isCorrect := false } ],
    category := "Basic Science", difficulty := "easy", explanation := "H2O is the chemical formula for water." },
  { id := "sci3",
    questionText := "Which planet is known as the Red Planet?",
    options := [ { text := "Jupiter", isCorrect := false }, { text := "Mars", isCorrect := true }, { text := "Venus", isCorrect := false }, { text := "Saturn", isCorrect := false } ],
    category := "Basic Science", difficulty := "medium", explanation := "Mars is called the Red Planet due to its reddish appearance from iron oxide on its surface." },
  { id := "sci4",
    questionText := "What pulls objects towards the Earth?",
    options := [ { text := "Magnetism", isCorrect := false }, { text := "Gravity", isCorrect := true }, { text := "Friction", isCorrect := false }, { text := "Wind", isCorrect := false } ],
    category := "Basic Science", difficulty := "easy", explanation := "Gravity is the force that attracts objects with mass towards each other, like Earth pulling objects down." },
  { id := "sci5",
    questionText := "How many colors are in a rainbow typically?",
    options := [ { text := "5", isCorrect := false }, { text := "7", isCorrect := true }, { text := "9", isCorrect := false }, { text := "3", isCorrect := false } ],
    category := "Basic Science", difficulty := "easy", explanation := "A rainbow has 7 colors: Red, Orange, Yellow, Green, Blue, Indigo, and Violet (ROYGBIV)." }
]

/-! ## Storage model for the seen-question key -/

/-- Content of the local-storage entry under `SEEN_QUESTIONS_STORAGE_KEY`,
classified by how the reading code treats the stored string.

Constructors:
- `absent`: `getItem` returns `null`, or the empty string (falsy, so every
  reader in the component skips parsing it);
- `malformed`: a string on which `JSON.parse` throws a `SyntaxError`
  (for example `not json`);
- `idList ids`: a string that `JSON.parse` turns into the array of strings
  `ids`, the shape the component itself ever writes.

Strings that parse to a non-array JSON value are outside this model; on such
values the component would fail later, at the array-method call sites. -/
inductive SeenStored where
  | absent
  | malformed
  | idList (ids : List String)
deriving DecidableEq, Repr

/-- Seen-id decoding step of `getUnseenQuestions` (lines 165 to 174): `seenIds`
starts as `[]`, a stored truthy string is parsed inside `try`, and a parse
failure is caught and resets `seenIds` to `[]`. -/
def decodeSeenIds : SeenStored → List String
  | .idList ids => ids
  | _ => []

/-- Filter step of `getUnseenQuestions` (line 176):
`allMockQuestions.filter(q => !seenIds.includes(q.id))`. -/
def unseenOf (stored : SeenStored) : List QuizQuestion :=
  allMockQuestions.filter (fun q => !((decodeSeenIds stored).contains q.id))

/-- Function `getUnseenQuestions` of `BrainQuizzesScreen.tsx`: decode the seen
ids, filter the pool, and when fewer than `QUESTIONS_PER_BATCH` questions are
unseen remove the stored record (`removeItem`) and return the full pool.
The second component is the storage content after the call. -/
def getUnseenQuestions (stored : SeenStored) : List QuizQuestion × SeenStored :=
  let unseen := unseenOf stored
  if unseen.length < QUESTIONS_PER_BATCH then
    (allMockQuestions, SeenStored.absent)
  else
    (unseen, stored)

/-! ## The random-comparator sort

Line 188 shuffles with `unseenQuestions.sort(() => 0.5 - Math.random())`: a
library sort driven by a comparator that ignores its arguments and returns a
fresh random number, positive or negative each with probability one half (a
zero return has probability zero for a real random source and is folded into
the positive side). The sort is modelled as a stable merge sort in which each
comparison consumes one boolean from a list `fs` of comparator outcomes:
`true` keeps the left candidate first, `false` picks the right candidate.
When `fs` is exhausted the comparison defaults to `true`; theorems about the
induced distribution only use flip lists long enough that the default is
never reached. -/

/-- Merge step of the comparator-driven merge sort; returns the merged list
and the unconsumed comparator outcomes. The fuel argument makes the
alternating recursion structural (hence kernel-executable); with fuel at
least the combined length of the two lists the fuel-exhausted branch is
never reached. -/
def mergeFlipsAux : Nat → List Bool → List α → List α → List α × List Bool
  | 0, fs, xs, ys => (xs ++ ys, fs)
  | _ + 1, fs, [], ys => (ys, fs)
  | _ + 1, fs, x :: xs, [] => (x :: xs, fs)
  | n + 1, fs, x :: xs, y :: ys =>
    match fs with
    | [] =>
      let r := mergeFlipsAux n [] xs (y :: ys)
      (x :: r.1, r.2)
    | f :: fs' =>
      if f then
        let r := mergeFlipsAux n fs' xs (y :: ys)
        (x :: r.1, r.2)
      else
        let r := mergeFlipsAux n fs' (x :: xs) ys
        (y :: r.1, r.2)

/-- Merge of two lists under the comparator outcomes `fs`. -/
def mergeFlips (fs : List Bool) (xs ys : List α) : List α × List Bool :=
  mergeFlipsAux (xs.length + ys.length) fs xs ys

/-- Recursion core of the comparator-driven merge sort, again structural in a
fuel argument; fuel `l.length` is always sufficient since each half is
strictly shorter than the list being split. -/
def sortFlipsAux : Nat → List Bool → List α → List α × List Bool
  | 0, fs, l => (l, fs)
  | n + 1, fs, l =>
    if l.length ≤ 1 then (l, fs)
    else
      let m := l.length / 2
      let r1 := sortFlipsAux n fs (l.take m)
      let r2 := sortFlipsAux n r1.2 (l.drop m)
      mergeFlips r2.2 r1.1 r2.1

/-- Comparator-driven merge sort: the model of
`array.sort(() => 0.5 - Math.random())`, with `fs` the successive signs of
the comparator outcomes. Returns the permuted list and the unconsumed
outcomes. -/
def sortFlips (fs : List Bool) (l : List α) : List α × List Bool :=
  sortFlipsAux l.length fs l

/-! ## Quiz component state and handlers -/

inductive AnswerStatus where
  | unanswered
  | correct
  | incorrect
deriving DecidableEq, Repr

inductive QuizPhase where
  | idle
  | active
  | finished
deriving DecidableEq, Repr

/-- React state of `BrainQuizzesScreen`: `quizState`, `currentQuestions`,
`currentQuestionIndex`, `score`, `selectedAnswer`, `answerStatus`. -/
structure QuizScreenState where
  quizState : QuizPhase
  currentQuestions : List QuizQuestion
  currentQuestionIndex : Nat
  score : Nat
  selectedAnswer : Option QuizAnswerOption
  answerStatus : AnswerStatus
deriving DecidableEq, Repr

/-- Handler `startNewQuiz` of `BrainQuizzesScreen.tsx`: read the unseen pool,
shuffle it with the random comparator (outcomes `fs`), slice the first
`QUESTIONS_PER_BATCH`, and reset the in-memory quiz state. The second
component is the storage content after the call. -/
def startNewQuiz (fs : List Bool) (stored : SeenStored) :
    QuizScreenState × SeenStored :=
  let r := getUnseenQuestions stored
  let shuffled := (sortFlips fs r.1).1
  let newBatch := shuffled.take QUESTIONS_PER_BATCH
  ({ quizState := .active, currentQuestions := newBatch,
     currentQuestionIndex := 0, score := 0, selectedAnswer := none,
     answerStatus := .unanswered }, r.2)

/-- Handler `handleAnswerSelect`: records the tentative selection only while
the current question is unanswered. -/
def handleAnswerSelect (option : QuizAnswerOption) (s : QuizScreenState) :
    QuizScreenState :=
  if s.answerStatus = .unanswered then { s with selectedAnswer := some option }
  else s

/-- Handler `handleSubmitAnswer` (lines 205 to 214): a no-op when nothing is
selected; otherwise increments the score when the selected option is correct
and sets the answer status. The handler itself does not inspect
`answerStatus`. -/
def handleSubmitAnswer (s : QuizScreenState) : QuizScreenState :=
  match s.selectedAnswer with
  | none => s
  | some selected =>
    if selected.isCorrect then
      { s with score := s.score + 1, answerStatus := .correct }
    else
      { s with answerStatus := .incorrect }

/-- Click on the submit control as rendered by the component (lines 299 to
317): the submit button exists only while `answerStatus` is `unanswered` and
is disabled until an answer is selected, so a click reaches
`handleSubmitAnswer` only in that configuration. -/
def clickSubmitAnswer (s : QuizScreenState) : QuizScreenState :=
  if s.answerStatus = .unanswered ∧ s.selectedAnswer ≠ none then
    handleSubmitAnswer s
  else s

/-- Handler `handleNextQuestion` (lines 216 to 233). Line 219 runs
`JSON.parse(seenIdsStr)` outside any `try`, so a malformed stored string
makes the handler throw, modelled as `Except.error`. Otherwise the current
question id is appended to the stored list when absent, and the state either
advances to the next question or transitions to `finished`. -/
def handleNextQuestion (stored : SeenStored) (s : QuizScreenState) :
    Except String (QuizScreenState × SeenStored) := do
  let seenIds ← match stored with
    | .malformed => Except.error "SyntaxError: JSON.parse failed"
    | .absent => pure []
    | .idList ids => pure ids
  let q ← match s.currentQuestions.get? s.currentQuestionIndex with
    | none => Except.error "TypeError: cannot read properties of undefined"
    | some q => pure q
  let stored' :=
    if seenIds.contains q.id then stored
    else SeenStored.idList (seenIds ++ [q.id])
  if s.currentQuestionIndex < s.currentQuestions.length - 1 then
    pure ({ s with currentQuestionIndex := s.currentQuestionIndex + 1,
                   selectedAnswer := none, answerStatus := .unanswered },
          stored')
  else
    pure ({ s with quizState := .finished }, stored')

/-! ## Session Store (`AuthContext.tsx`) -/

/-- Shape `User` from `types.ts` as constructed and consumed by
`AuthContext.tsx` and `RegistrationScreen.tsx`. -/
structure User where
  id : String
  name : String
  email : String
deriving DecidableEq, Repr

/-- Content of the local-storage entry under `femmoraUser`, classified by how
`AuthProvider` treats the stored string: missing (or empty, hence falsy),
a string on which `JSON.parse` throws, or a string parsed into a user
record. -/
inductive AuthStorage where
  | absent
  | malformed
  | userJson (u : User)
deriving DecidableEq, Repr

/-- In-memory state of `AuthProvider`: `isAuthenticated` and `user`. -/
structure AuthState where
  isAuthenticated : Bool
  user : Option User
deriving DecidableEq, Repr

/-- Function `login` of `AuthContext.tsx`: unconditionally sets the user,
marks authenticated, and persists the serialized record. -/
def login (userData : User) (_st : AuthState × AuthStorage) :
    AuthState × AuthStorage :=
  ({ isAuthenticated := true, user := some userData },
   AuthStorage.userJson userData)

/-- Function `logout` of `AuthContext.tsx`: clears the user, marks
unauthenticated, removes the persisted record. -/
def logout (_st : AuthState × AuthStorage) : AuthState × AuthStorage :=
  ({ isAuthenticated := false, user := none }, AuthStorage.absent)

/-- Mount effect of `AuthProvider` (lines 36 to 53): state starts
unauthenticated; a stored truthy string is parsed inside `try`, success
restores the session, and a parse failure is caught and removes the corrupt
record. -/
def initAuth (stored : AuthStorage) : AuthState × AuthStorage :=
  match stored with
  | .absent => ({ isAuthenticated := false, user := none }, .absent)
  | .malformed => ({ isAuthenticated := false, user := none }, .absent)
  | .userJson u => ({ isAuthenticated := true, user := some u }, .userJson u)

/-- Predicate for a persisted session record that `JSON.parse` accepts. -/
def parsesOk : AuthStorage → Bool
  | .userJson _ => true
  | _ => false

/-! ## Registration form (`RegistrationScreen.tsx`) -/

/-- Field state of the registration form. -/
structure RegForm where
  name : String
  email : String
  password : String
  confirmPassword : String
deriving DecidableEq, Repr

/-- Handler `handleSubmit` of `RegistrationScreen.tsx` (lines 34 to 57).
Arguments: `now` is the value of `Date.now().toString()` at the click, `f`
the form fields, `st` the session state and storage. Result: the session
state and storage after the call, the inline error message (empty when
cleared), and whether navigation to the home route happened. On a
validation failure the handler returns before touching the session. -/
def handleSubmit (now : String) (f : RegForm)
    (st : AuthState × AuthStorage) :
    (AuthState × AuthStorage) × String × Bool :=
  if f.password ≠ f.confirmPassword then
    (st, "Passwords do not match.", false)
  else if f.name = "" ∨ f.email = "" ∨ f.password = "" then
    (st, "Please fill in all fields.", false)
  else
    (login { id := now, name := f.name, email := f.email } st, "", true)

/-! ## Preference Store (`LanguageContext.tsx`)

The enumeration `Language` and the table `UI_TEXT` live in `types.ts` and
`constants.ts`, which are not part of the sources here; both are modelled
from the spec. The namespace `Prefs` keeps the source names `Language` and
`translate` clear of the homonymous Mathlib declarations. -/

namespace Prefs

/-- Modelled from the spec: `types.ts` (not in the sources) defines the
`Language` enumeration with members EN, HI and TA, persisted as a short
string code. -/
inductive Language where
  | EN
  | HI
  | TA
deriving DecidableEq, Repr

/-- Modelled from the spec: the raw short string code of each enumeration
member, the value written to and read from local storage. -/
def Language.code : Language → String
  | .EN => "EN"
  | .HI => "HI"
  | .TA => "TA"

/-- Decides whether a stored string is the code of some `Language` member. -/
def isValidLanguageCode (s : String) : Bool :=
  s = Language.code .EN ∨ s = Language.code .HI ∨ s = Language.code .TA

/-- Initializer of the `language` state in `LanguageProvider` (lines 31 to
34): `localStorage.getItem charged as Language`, then `storedLang ||
Language.EN`. The stored value is kept as a raw string because the source
casts without validating; a missing or empty (falsy) value falls back to the
EN code, anything else is returned unchanged. -/
def initLanguage (stored : Option String) : String :=
  match stored with
  | none => Language.code .EN
  | some s => if s = "" then Language.code .EN else s

/-- Translation table shape: key to list of per-language strings, the
embedding of the `UI_TEXT` object of `constants.ts`. -/
def TranslationTable : Type := List (String × List (Language × String))

/-- Modelled from the spec: `constants.ts` (not in the sources) holds the
static table `UI_TEXT` from string key to per-language string; every key
should carry an entry for every supported language. A few keys used by the
screens stand in for the full table. -/
def UI_TEXT : TranslationTable := [
  ("startQuiz", [(.EN, "Start Quiz"), (.HI, "Kvij shuru karen"), (.TA, "Vinadi vilayattai thodangu")]),
  ("yourScore", [(.EN, "Your Score"), (.HI, "Aapka skor"), (.TA, "Ungal mathippen")]),
  ("login", [(.EN, "Login"), (.HI, "Log in karen"), (.TA, "Ulnuzhai")]),
  ("register", [(.EN, "Register"), (.HI, "Panjikaran karen"), (.TA, "Pathivu sei")])
]

/-- JavaScript fallback `defaultText || key` on line 60 of
`LanguageContext.tsx`: an undefined or empty default is replaced by the
key. -/
def fallbackText (key : String) (defaultText : Option String) : String :=
  match defaultText with
  | some d => if d = "" then key else d
  | none => key

/-- Function `translate` of `LanguageContext.tsx` (lines 54 to 61):
`UI_TEXT[key]` and then `translationsForKey[language]`, guarded by the
JavaScript truthiness of both (a missing object or a missing or empty
string falls through), with the `fallbackText` fallback. -/
def translate (table : TranslationTable) (language : Language) (key : String)
    (defaultText : Option String) : String :=
  match table.lookup key with
  | some translationsForKey =>
    match translationsForKey.lookup language with
    | some s => if s = "" then fallbackText key defaultText else s
    | none => fallbackText key defaultText
  | none => fallbackText key defaultText

end Prefs

/-! ## Distribution of the random-comparator shuffle -/

/-- Enumeration of all comparator-outcome lists of a given length; over a
uniform random source each list is equally likely. -/
def allFlipLists : Nat → List (List Bool)
  | 0 => [[]]
  | n + 1 =>
    ((allFlipLists n).map (fun fs => true :: fs)) ++
    ((allFlipLists n).map (fun fs => false :: fs))

/-- Stored seen record holding the first fifteen pool ids: exactly the five
Basic Science questions remain unseen, so `startNewQuiz` draws from a
five-question pool without resetting. -/
def seenFifteen : SeenStored :=
  SeenStored.idList ["gk1", "gk2", "gk3", "gk4", "gk5", "logic1", "logic2",
    "logic3", "logic4", "logic5", "math1", "math2", "math3", "math4", "math5"]

/-- The five Basic Science questions, in pool order. -/
def sciPool : List QuizQuestion := allMockQuestions.drop 15

/-- Number of length-8 comparator-outcome lists under which the batch drawn
by `startNewQuiz` from the `seenFifteen` storage state comes out with the
given id order. Sorting a five-element list consumes at most eight
comparisons, so the length-8 lists cover every execution, each with
probability 2 to the minus 8 over a uniform random source. -/
def batchIdCount (t : List String) : Nat :=
  ((allFlipLists 8).filter
    (fun fs =>
      (startNewQuiz fs seenFifteen).1.currentQuestions.map QuizQuestion.id
        = t)).length

/-! ## Concrete states used by the witnesses and counterexamples -/

/-- Record state in which sixteen of the twenty pool ids are seen; only four
questions remain unseen, so the next start resets the record. -/
def seenSixteen : SeenStored :=
  SeenStored.idList ["gk1", "gk2", "gk3", "gk4", "gk5", "logic1", "logic2",
    "logic3", "logic4", "logic5", "math1", "math2", "math3", "math4", "math5",
    "sci1"]

/-- Concrete active quiz state: the state created by starting a quiz on an
empty record with all comparator outcomes defaulted. -/
def someActiveState : QuizScreenState :=
  (startNewQuiz [] SeenStored.absent).1

/-- Quiz state in which the first Basic Science question was answered with
the correct option and submitted: the selection is still in place and the
status is already `correct`. Reachable by `startNewQuiz`, a select and a
submit. -/
def submittedState : QuizScreenState :=
  { quizState := .active, currentQuestions := sciPool,
    currentQuestionIndex := 0, score := 1,
    selectedAnswer := some { text := "Sunlight", isCorrect := true },
    answerStatus := .correct }

/-- Quiz state with the correct option of the first Basic Science question
selected but not yet submitted. -/
def preSubmitState : QuizScreenState :=
  { quizState := .active, currentQuestions := sciPool,
    currentQuestionIndex := 0, score := 0,
    selectedAnswer := some { text := "Sunlight", isCorrect := true },
    answerStatus := .unanswered }

/-- Quiz state with no selection made on the current question. -/
def noSelectionState : QuizScreenState :=
  { quizState := .active, currentQuestions := sciPool,
    currentQuestionIndex := 0, score := 0, selectedAnswer := none,
    answerStatus := .unanswered }

/-- Registration form with a mismatched password confirmation. -/
def regFormMismatch : RegForm :=
  { name := "Asha", email := "asha@example.com", password := "pw1",
    confirmPassword := "pw2" }

/-- Fresh unauthenticated session over empty storage. -/
def initialSession : AuthState × AuthStorage :=
  ({ isAuthenticated := false, user := none }, AuthStorage.absent)

/-! ## Permutation and size lemmas about the embedded operations -/

theorem mergeFlipsAux_perm (n : Nat) (fs : List Bool) (xs ys : List α) :
    (mergeFlipsAux n fs xs ys).1.Perm (xs ++ ys) := by
  induction n generalizing fs xs ys with
  | zero => simp [mergeFlipsAux]
  | succ n ih =>
    match xs, ys with
    | [], ys => simp [mergeFlipsAux]
    | x :: xs, [] => simp [mergeFlipsAux]
    | x :: xs, y :: ys =>
      cases fs with
      | nil =>
        simpa [mergeFlipsAux] using (ih [] xs (y :: ys)).cons x
      | cons f fs' =>
        cases f with
        | true => simpa [mergeFlipsAux] using (ih fs' xs (y :: ys)).cons x
        | false =>
          simpa [mergeFlipsAux] using
            ((ih fs' (x :: xs) ys).cons y).trans List.perm_middle.symm

theorem mergeFlips_perm (fs : List Bool) (xs ys : List α) :
    (mergeFlips fs xs ys).1.Perm (xs ++ ys) :=
  mergeFlipsAux_perm _ _ _ _

theorem sortFlipsAux_perm (n : Nat) (fs : List Bool) (l : List α) :
    (sortFlipsAux n fs l).1.Perm l := by
  induction n generalizing fs l with
  | zero => simp [sortFlipsAux]
  | succ n ih =>
    by_cases h : l.length ≤ 1
    · simp [sortFlipsAux, h]
    · simp only [sortFlipsAux, h, if_false]
      refine (mergeFlips_perm _ _ _).trans ?_
      refine ((ih fs (l.take (l.length / 2))).append
        (ih _ (l.drop (l.length / 2)))).trans ?_
      rw [List.take_append_drop]

/-- The random-comparator sort always returns a permutation of its input. -/
theorem sortFlips_perm (fs : List Bool) (l : List α) :
    (sortFlips fs l).1.Perm l :=
  sortFlipsAux_perm _ _ _

/-- Whatever the storage holds, `getUnseenQuestions` returns a sublist of the
pool. -/
theorem getUnseenQuestions_sublist (st : SeenStored) :
    (getUnseenQuestions st).1.Sublist allMockQuestions := by
  unfold getUnseenQuestions
  dsimp only
  split
  · exact List.Sublist.refl _
  · exact List.filter_sublist _

/-- Whatever the storage holds, `getUnseenQuestions` returns at least a full
batch of questions. -/
theorem getUnseenQuestions_length (st : SeenStored) :
    QUESTIONS_PER_BATCH ≤ (getUnseenQuestions st).1.length := by
  unfold getUnseenQuestions
  dsimp only
  split
  · decide
  · next h => exact Nat.le_of_not_lt h

/-- The ids of the static pool are pairwise distinct. -/
theorem allMockQuestions_ids_nodup :
    (allMockQuestions.map QuizQuestion.id).Nodup := by decide

/-! ## Claim theorems -/

/-- C1: for every comparator-outcome list and every modelled state of the
persisted seen-question record, `startNewQuiz` produces a batch of exactly
`min QUESTIONS_PER_BATCH allMockQuestions.length` (that is, five) questions
in which no two questions share an id. -/
theorem claim_C1_batch_size_and_distinct_ids (fs : List Bool) (st : SeenStored) :
    (startNewQuiz fs st).1.currentQuestions.length
      = min QUESTIONS_PER_BATCH allMockQuestions.length ∧
    ((startNewQuiz fs st).1.currentQuestions.map QuizQuestion.id).Nodup := by
  have hperm := sortFlips_perm fs (getUnseenQuestions st).1
  have hlen : (sortFlips fs (getUnseenQuestions st).1).1.length
      = (getUnseenQuestions st).1.length := hperm.length_eq
  have hge := getUnseenQuestions_length st
  have hbatch : (startNewQuiz fs st).1.currentQuestions
      = ((sortFlips fs (getUnseenQuestions st).1).1).take QUESTIONS_PER_BATCH :=
    rfl
  constructor
  · rw [hbatch, List.length_take, hlen]
    have h20 : allMockQuestions.length = 20 := by decide
    have h5 : QUESTIONS_PER_BATCH = 5 := rfl
    rw [h20, h5]
    rw [h5] at hge
    omega
  · rw [hbatch]
    have hnodup_unseen : ((getUnseenQuestions st).1.map QuizQuestion.id).Nodup :=
      List.Nodup.sublist ((getUnseenQuestions_sublist st).map QuizQuestion.id)
        allMockQuestions_ids_nodup
    have hnodup_shuffled :
        ((sortFlips fs (getUnseenQuestions st).1).1.map QuizQuestion.id).Nodup :=
      (hperm.map QuizQuestion.id).nodup_iff.mpr hnodup_unseen
    rw [List.map_take]
    exact List.Nodup.sublist (List.take_sublist _ _) hnodup_shuffled

/-- C2: reset policy of `getUnseenQuestions` as used by `startNewQuiz`. When
fewer than a batch of questions are unseen, the Seen-Question Record is
cleared before the draw and the full pool stands in for the unseen set;
otherwise the record is left untouched and every question in the drawn batch
comes from the unseen set. -/
theorem claim_C2_reset_policy (fs : List Bool) (st : SeenStored) :
    ((unseenOf st).length < QUESTIONS_PER_BATCH →
      getUnseenQuestions st = (allMockQuestions, SeenStored.absent) ∧
      (startNewQuiz fs st).2 = SeenStored.absent) ∧
    (¬ (unseenOf st).length < QUESTIONS_PER_BATCH →
      getUnseenQuestions st = (unseenOf st, st) ∧
      (startNewQuiz fs st).2 = st ∧
      ∀ q ∈ (startNewQuiz fs st).1.currentQuestions, q ∈ unseenOf st) := by
  constructor
  · intro h
    have hg : getUnseenQuestions st = (allMockQuestions, SeenStored.absent) := by
      unfold getUnseenQuestions
      simp [h]
    refine ⟨hg, ?_⟩
    show (getUnseenQuestions st).2 = SeenStored.absent
    rw [hg]
  · intro h
    have hg : getUnseenQuestions st = (unseenOf st, st) := by
      unfold getUnseenQuestions
      simp [h]
    refine ⟨hg, ?_, ?_⟩
    · show (getUnseenQuestions st).2 = st
      rw [hg]
    · intro q hq
      have hq2 : q ∈ (sortFlips fs (getUnseenQuestions st).1).1 :=
        List.take_subset _ _ hq
      have := (sortFlips_perm fs (getUnseenQuestions st).1).subset hq2
      rwa [hg] at this

/-- Witness for C2: with sixteen seen ids the record is cleared by the draw,
while with an absent record the draw leaves the storage untouched. -/
theorem claim_C2_reset_policy_witness :
    ((unseenOf seenSixteen).length < QUESTIONS_PER_BATCH ∧
      (startNewQuiz [] seenSixteen).2 = SeenStored.absent) ∧
    (¬ (unseenOf SeenStored.absent).length < QUESTIONS_PER_BATCH ∧
      (startNewQuiz [] SeenStored.absent).2 = SeenStored.absent) :=
  ⟨⟨by decide, ((claim_C2_reset_policy [] seenSixteen).1 (by decide)).2⟩,
   ⟨by decide, ((claim_C2_reset_policy [] SeenStored.absent).2 (by decide)).2.1⟩⟩

set_option maxRecDepth 4000 in
/-- C3 counterexample: the `sort(() => 0.5 - Math.random())` shuffle of
`startNewQuiz` is not a uniform random permutation. With the `seenFifteen`
record the unseen pool is `sciPool` (five questions), every execution of the
sort consumes at most eight comparator outcomes, and over the 256 equally
likely length-8 outcome lists the pool-order batch arises 8 times while the
batch with its first four questions reversed arises once: probabilities
8/256 versus 1/256, so not every permutation of the unseen pool is equally
likely. -/
theorem claim_C3_counterexample_not_uniform :
    getUnseenQuestions seenFifteen = (sciPool, seenFifteen) ∧
    (allFlipLists 8).length = 2 ^ 8 ∧
    batchIdCount ["sci1", "sci2", "sci3", "sci4", "sci5"] = 8 ∧
    batchIdCount ["sci4", "sci3", "sci2", "sci1", "sci5"] = 1 := by decide

/-- C3 amended: `startNewQuiz` shuffles the unseen pool by a library sort
driven by a random comparator; the result is some permutation of the unseen
pool, but not a uniformly distributed one, and the first
`QUESTIONS_PER_BATCH` elements of it form the active batch. -/
theorem claim_C3_shuffle_is_permutation_take_batch (fs : List Bool)
    (st : SeenStored) :
    (startNewQuiz fs st).1.currentQuestions
      = ((sortFlips fs (getUnseenQuestions st).1).1).take QUESTIONS_PER_BATCH ∧
    ((sortFlips fs (getUnseenQuestions st).1).1).Perm
      (getUnseenQuestions st).1 :=
  ⟨rfl, sortFlips_perm _ _⟩

/-- C4 counterexample: with a malformed string stored under the
seen-question key, `handleNextQuestion` propagates the `JSON.parse`
exception instead of treating the seen set as empty, because line 219 of
`BrainQuizzesScreen.tsx` parses outside any try/catch. -/
theorem claim_C4_counterexample_next_question_throws :
    handleNextQuestion SeenStored.malformed someActiveState
      = Except.error "SyntaxError: JSON.parse failed" := rfl

/-- C4 amended: `startNewQuiz` (through `getUnseenQuestions`) catches the
read/parse error and draws exactly as it would from an empty seen set, but
`handleNextQuestion` does not catch it: on a malformed stored string it
propagates an exception, whatever the in-memory quiz state. -/
theorem claim_C4_parse_error_handling (fs : List Bool) (s : QuizScreenState) :
    (startNewQuiz fs SeenStored.malformed).1
      = (startNewQuiz fs SeenStored.absent).1 ∧
    handleNextQuestion SeenStored.malformed s
      = Except.error "SyntaxError: JSON.parse failed" :=
  ⟨rfl, rfl⟩

/-- C5 counterexample: the transition is not terminal at the level of the
`handleSubmitAnswer` function. In a state whose status is already `correct`
and whose selection is still set, a further call increments the score
again. -/
theorem claim_C5_counterexample_resubmit_changes_score :
    submittedState.answerStatus = AnswerStatus.correct ∧
    (handleSubmitAnswer submittedState).score ≠ submittedState.score := by
  decide

/-- C5 amended: `handleSubmitAnswer` is a no-op without a selection, and
with a selection scores and sets the status by `isCorrect`; terminality
holds only at the rendered interface, where the submit control exists only
while the status is `unanswered` (`clickSubmitAnswer`), not in the handler
itself. -/
theorem claim_C5_submit_answer_behavior (s : QuizScreenState) :
    (s.selectedAnswer = none → handleSubmitAnswer s = s) ∧
    (∀ a, s.selectedAnswer = some a →
      (handleSubmitAnswer s).score = s.score + (if a.isCorrect then 1 else 0) ∧
      (handleSubmitAnswer s).answerStatus
        = (if a.isCorrect then AnswerStatus.correct
           else AnswerStatus.incorrect)) ∧
    (s.answerStatus ≠ AnswerStatus.unanswered → clickSubmitAnswer s = s) := by
  refine ⟨?_, ?_, ?_⟩
  · intro h
    simp [handleSubmitAnswer, h]
  · intro a ha
    by_cases hc : a.isCorrect <;> simp [handleSubmitAnswer, ha, hc]
  · intro h
    simp [clickSubmitAnswer, h]

/-- Witness for C5 amended: concrete states discharging each hypothesis. -/
theorem claim_C5_submit_answer_behavior_witness :
    (handleSubmitAnswer noSelectionState = noSelectionState) ∧
    ((handleSubmitAnswer preSubmitState).score = preSubmitState.score +
      (if (QuizAnswerOption.mk "Sunlight" true).isCorrect then 1 else 0)) ∧
    (clickSubmitAnswer submittedState = submittedState) :=
  ⟨(claim_C5_submit_answer_behavior noSelectionState).1 rfl,
   ((claim_C5_submit_answer_behavior preSubmitState).2.1 _ rfl).1,
   (claim_C5_submit_answer_behavior submittedState).2.2 (by decide)⟩

/-- C6: a `login u` followed by store reinitialization from durable storage
restores the authenticated session with user `u`; in general
reinitialization authenticates exactly when the persisted record parses,
and on a parse failure the store starts unauthenticated. -/
theorem claim_C6_login_restart_roundtrip (u : User)
    (st : AuthState × AuthStorage) (stored : AuthStorage) :
    ((initAuth (login u st).2).1.isAuthenticated = true ∧
     (initAuth (login u st).2).1.user = some u) ∧
    ((initAuth stored).1.isAuthenticated = true ↔ parsesOk stored = true) ∧
    (initAuth AuthStorage.malformed).1
      = { isAuthenticated := false, user := none } := by
  refine ⟨⟨rfl, rfl⟩, ?_, rfl⟩
  cases stored <;> simp [initAuth, parsesOk]

/-- C7 counterexample: for the empty key with no default text and no stored
translation under the empty key, `translate` returns the empty string, not a
non-empty displayable one. -/
theorem claim_C7_counterexample_empty_key :
    Prefs.translate Prefs.UI_TEXT Prefs.Language.EN "" none = "" := by decide

/-- C7 amended: `translate` is total (never throws) and, for every table,
language, default text and every non-empty key, returns a non-empty string;
only the empty key with a missing or empty default can produce the empty
string. -/
theorem claim_C7_translate_nonempty (table : Prefs.TranslationTable)
    (lang : Prefs.Language) (key : String) (dt : Option String)
    (h : key ≠ "") : Prefs.translate table lang key dt ≠ "" := by
  have hfb : Prefs.fallbackText key dt ≠ "" := by
    unfold Prefs.fallbackText
    cases dt with
    | none => exact h
    | some d =>
      by_cases hd : d = ""
      · simp only [hd, if_true, if_pos]
        exact h
      · simp only [if_neg hd]
        exact hd
  unfold Prefs.translate
  split
  · split
    · split
      · exact hfb
      · next hs => exact hs
    · exact hfb
  · exact hfb

/-- Witness for C7 amended: the key `startQuiz` used by the quiz screen. -/
theorem claim_C7_translate_nonempty_witness :
    ("startQuiz" ≠ "") ∧
    Prefs.translate Prefs.UI_TEXT Prefs.Language.TA "startQuiz" none ≠ "" :=
  ⟨by decide,
   claim_C7_translate_nonempty Prefs.UI_TEXT Prefs.Language.TA "startQuiz"
     none (by decide)⟩

/-- C8 counterexample: a stored string that is none of the valid codes EN,
HI, TA is restored as the current language unchanged instead of falling back
to EN — the initializer casts without validating. -/
theorem claim_C8_counterexample_invalid_code_kept :
    Prefs.initLanguage (some "fr") = "fr" ∧
    Prefs.isValidLanguageCode "fr" = false ∧
    "fr" ≠ Prefs.Language.code Prefs.Language.EN := by decide

/-- C8 amended: initialization defaults to EN exactly when the stored value
is absent or the empty string (the falsy cases of `storedLang ||
Language.EN`); any other stored string, valid code or not, is restored
as-is. -/
theorem claim_C8_init_language_fallback :
    Prefs.initLanguage none = Prefs.Language.code Prefs.Language.EN ∧
    Prefs.initLanguage (some "") = Prefs.Language.code Prefs.Language.EN ∧
    ∀ s : String, s ≠ "" → Prefs.initLanguage (some s) = s := by
  refine ⟨rfl, rfl, ?_⟩
  intro s hs
  simp [Prefs.initLanguage, hs]

/-- Witness for C8 amended: the valid code HI is restored as-is. -/
theorem claim_C8_init_language_fallback_witness :
    ("HI" ≠ "") ∧ Prefs.initLanguage (some "HI") = "HI" :=
  ⟨by decide, claim_C8_init_language_fallback.2.2 "HI" (by decide)⟩

/-- C9: a registration submission with mismatched password confirmation or
a missing required field sets a non-empty inline error, aborts (no
navigation), and leaves the session state and the durable storage
untouched. -/
theorem claim_C9_registration_validation (now : String) (f : RegForm)
    (st : AuthState × AuthStorage)
    (h : f.password ≠ f.confirmPassword ∨ f.name = "" ∨ f.email = "" ∨
      f.password = "") :
    (handleSubmit now f st).1 = st ∧
    (handleSubmit now f st).2.1 ≠ "" ∧
    (handleSubmit now f st).2.2 = false := by
  unfold handleSubmit
  by_cases h1 : f.password = f.confirmPassword
  · have hne : ¬ (f.password ≠ f.confirmPassword) := fun hn => hn h1
    have h2 : f.name = "" ∨ f.email = "" ∨ f.password = "" :=
      h.resolve_left hne
    rw [if_neg hne, if_pos h2]
    exact ⟨rfl, (by decide : ("Please fill in all fields." : String) ≠ ""),
      rfl⟩
  · rw [if_pos h1]
    exact ⟨rfl, (by decide : ("Passwords do not match." : String) ≠ ""), rfl⟩

/-- Witness for C9: the mismatched form is rejected without touching the
session. -/
theorem claim_C9_registration_validation_witness :
    regFormMismatch.password ≠ regFormMismatch.confirmPassword ∧
    ((handleSubmit "1700000000000" regFormMismatch initialSession).1
        = initialSession ∧
     (handleSubmit "1700000000000" regFormMismatch initialSession).2.1 ≠ "" ∧
     (handleSubmit "1700000000000" regFormMismatch initialSession).2.2
        = false) :=
  ⟨by decide,
   claim_C9_registration_validation "1700000000000" regFormMismatch
     initialSession (Or.inl (by decide))⟩

/-- C10: every question of the static pool has exactly one option with
`isCorrect = true`, and the pool ids are pairwise distinct. -/
theorem claim_C10_pool_integrity :
    (allMockQuestions.all fun q =>
      (q.options.filter (fun o => o.isCorrect)).length == 1) = true ∧
    (allMockQuestions.map QuizQuestion.id).Nodup := by decide
